import Mathlib

/-
Verification of the sci-spider fetch pipeline (src/sci_spider-fenqu.py).

The Python source is shallowly embedded below.  Network I/O performed by
`requests.get` is modelled by an oracle `http : Nat → HttpResult` giving the
outcome of the k-th HTTP request of the run; the lxml HTML parser is modelled
by an environment function `parse : String → HtmlInput` that returns, for a
given page text, the element lists the four xpath queries of the source would
return (or `malformed` when `fromstring` raises).  Time is modelled as an
integer clock threaded through the rate limiter.  Python exceptions that the
source can raise or catch are reified in `PyExn`; code paths where the source
lets an exception escape are embedded in `Except PyExn`.
-/

namespace SciSpider

/-- Python exceptions relevant to the embedded code paths: `TypeError`
(e.g. `re.sub` or `re.findall` applied to a non-string) and `IndexError`
(subscripting an empty list / short tuple). -/
inductive PyExn
  | typeError
  | indexError
  deriving DecidableEq

/-- Outcome of one `requests.get` call: an HTTP response with status code and
body, or a transport-level `requests.exceptions.RequestException`. -/
inductive HttpResult
  | resp (status : Nat) (body : String)
  | exn
  deriving DecidableEq

/-- Proposition that an HTTP outcome is a server-error response, i.e. a
response whose status lies in [500, 600). -/
def is5xx : HttpResult → Prop
  | .resp s _ => 500 ≤ s ∧ s < 600
  | .exn => False

instance : DecidablePred is5xx := by
  intro r
  cases r with
  | resp s b => exact inferInstanceAs (Decidable (500 ≤ s ∧ s < 600))
  | exn => exact inferInstanceAs (Decidable False)

/-- Membership in the character class `[0-9A-Za-z\-,._;]` of the regex in
`get_valid_filename` (source line 22). -/
def validChar (c : Char) : Bool :=
  decide ('0' ≤ c ∧ c ≤ '9') || decide ('A' ≤ c ∧ c ≤ 'Z') ||
    decide ('a' ≤ c ∧ c ≤ 'z') ||
    c == '-' || c == ',' || c == '.' || c == '_' || c == ';'

/-- Embedding of `get_valid_filename` (source lines 20-22):
`re.sub` replaces every character outside the class with an underscore, and
the slice `[:name_len]` keeps the first `name_len` characters. -/
def get_valid_filename (filename : String) (name_len : Nat := 128) : String :=
  String.mk ((filename.data.map (fun c => if validChar c then c else '_')).take name_len)

/-- Lookup in an insertion-ordered association list; embeds `dict.get` on the
cache dictionary. -/
def listLookup : List (String × String) → String → Option String
  | [], _ => none
  | (k, v) :: rest, key => if k == key then some v else listLookup rest key

/-- Insert-or-update in an insertion-ordered association list; embeds
`dict.__setitem__` (update in place if the key exists, else append). -/
def listInsert (key val : String) : List (String × String) → List (String × String)
  | [] => [(key, val)]
  | (k, v) :: rest =>
    if k == key then (key, val) :: rest else (k, v) :: listInsert key val rest

/-- Python truthiness of an optional string: `None` and the empty string are
falsy, every other string is truthy. -/
def truthyStr : Option String → Bool
  | none => false
  | some s => !s.data.isEmpty

/-- Characters that `urllib.parse` accepts inside a URL scheme after the
leading letter. -/
def isSchemeChar (c : Char) : Bool :=
  c.isAlpha || c.isDigit || c == '+' || c == '-' || c == '.'

/-- Split a character list at the first colon, returning the parts before and
after it, or `none` when there is no colon. -/
def splitColon : List Char → Option (List Char × List Char)
  | [] => none
  | c :: cs =>
    if c == ':' then some ([], cs)
    else (splitColon cs).map (fun p => (c :: p.1, p.2))

/-- Whether a candidate scheme (the text before the first colon) is a valid
URL scheme for `urlparse`: nonempty, starts with a letter, and the remaining
characters are scheme characters. -/
def schemeOk : List Char → Bool
  | [] => false
  | c :: rest => c.isAlpha && rest.all isSchemeChar

/-- Embedding of the test `urlparse(url).scheme` being nonempty
(source line 138). -/
def hasScheme (url : String) : Bool :=
  match splitColon url.data with
  | none => false
  | some (pre, _) => schemeOk pre

/-- Characters of a network-location component: everything up to the first
path, query or fragment delimiter. -/
def hostChars (cs : List Char) : List Char :=
  cs.takeWhile (fun c => c != '/' && c != '?' && c != '#')

/-- Embedding of `urlparse(url).netloc` (source line 109): strip a valid
scheme if present, then read the host part after a leading double slash. -/
def netloc (url : String) : String :=
  let rest :=
    match splitColon url.data with
    | some (pre, after) => if schemeOk pre then after else url.data
    | none => url.data
  match rest with
  | '/' :: '/' :: r => String.mk (hostChars r)
  | _ => String.mk []

/-- Embedding of `url.replace` removing every literal backslash
(source line 140). -/
def stripBackslashes (s : String) : String :=
  String.mk (s.data.filter (fun c => c != '\\'))

/-- Embedding of `os.path.join` for one directory and one relative component,
as used at source lines 152 and 219. -/
def joinPath (a b : String) : String :=
  if (match b.data with | '/' :: _ => true | _ => false) then b
  else if a.data.isEmpty then b
  else if (match a.data.getLast? with | some '/' => true | _ => false) then a ++ b
  else a ++ "/" ++ b

/-- Embedding of `doi_parser` (source lines 87-90), the derivation of the
landing-page URL from an identifier. -/
def doiToUrl (doi : String) (start_url : String) (useSSL : Bool) : String :=
  (if useSSL then "https" else "http") ++ "://" ++ start_url ++ "/" ++ doi

/-- Embedding of `wait` (source lines 105-115).  The wall clock is the
argument `t`; sleeping for `s` seconds returns at time `t + s`.  The result is
the time at which the call returns together with the updated per-host
timestamp table (`domains[domain] = time.time()` runs after the sleep). -/
def wait (url : String) (delay : Int) (domains : String → Option Int) (t : Int) :
    Int × (String → Option Int) :=
  let domain := netloc url
  let t2 :=
    match domains domain with
    | some la => if delay > 0 ∧ delay - (t - la) > 0 then t + (delay - (t - la)) else t
    | none => t
  (t2, fun d => if d == domain then some t2 else domains d)

/-- Embedding of `download` (source lines 118-131).  `http` is the response
oracle, `k` the index of the next HTTP request, and the final `Nat` argument
is `num_retries`.  The result is the returned page text (`None` embedded as
`none`) together with the number of HTTP requests issued.  The source guards
the recursive retry by `num_retries and 500 <= status < 600`; the two pattern
cases below split on the truthiness of `num_retries`. -/
def download (http : Nat → HttpResult) (k : Nat) : Nat → Option String × Nat
  | 0 =>
    match http k with
    | .exn => (none, 1)
    | .resp status body =>
      if status ≥ 400 then (none, 1) else (some body, 1)
  | n + 1 =>
    match http k with
    | .exn => (none, 1)
    | .resp status body =>
      if status ≥ 400 then
        if 500 ≤ status ∧ status < 600 then
          let r := download http (k + 1) n
          (r.1, r.2 + 1)
        else (none, 1)
      else (some body, 1)

/-- Python value passed as the `doi` argument of `download_pdf`: either a
string or a list (the crawler passes the whole `[doi, factor, jcr]` list). -/
inductive PyObj
  | pyStr (s : String)
  | pyList (xs : List String)
  deriving DecidableEq

/-- Application of `get_valid_filename` to a Python value: `re.sub` raises
`TypeError` when its third argument is not a string. -/
def get_valid_filename_py : PyObj → Except PyExn String
  | .pyStr s => .ok (get_valid_filename s)
  | .pyList _ => .error .typeError

/-- Result dictionary produced by `get_link_xpath`: the extracted display
title and the onclick URL. -/
structure LinkResult where
  title : String
  onclick : String
  deriving DecidableEq

/-- Outcome of `download_pdf`: the returned boolean, the file written on
success as a (path, content) pair, the number of HTTP requests issued, and
the normalized file URL that was requested. -/
structure PdfOutcome where
  ok : Bool
  written : Option (String × String)
  reqs : Nat
  fileUrl : String
  deriving DecidableEq

/-- Normalization of the extracted link performed at the top of
`download_pdf` (source lines 137-140): prefix `https:` when the URL has no
scheme, then strip literal backslashes. -/
def pdfUrl (result : LinkResult) : String :=
  stripBackslashes (if hasScheme result.onclick then result.onclick else "https:" ++ result.onclick)

/-- Success branch of `download_pdf` (source lines 151-157): choose the title
when it has at least 5 characters, else the `doi` argument, sanitize it,
append the `.pdf` extension and write the body under `dir`.  Sanitizing a
non-string `doi` raises `TypeError`, which the source's
`except RequestException` does not catch. -/
def save_pdf (content : String) (result : LinkResult) (dir : String) (doi : PyObj)
    (fileUrl : String) : Except PyExn PdfOutcome :=
  match (if result.title.length ≥ 5 then get_valid_filename_py (.pyStr result.title)
         else get_valid_filename_py doi) with
  | .error e => .error e
  | .ok base =>
    .ok { ok := true, written := some (joinPath dir (base ++ ".pdf"), content),
          reqs := 1, fileUrl := fileUrl }

/-- Embedding of `download_pdf` (source lines 134-160).  Arguments as in
`download`, with `num_retries` last; the retry guard and classification are
identical to `download`. -/
def download_pdf (http : Nat → HttpResult) (k : Nat) (result : LinkResult) (dir : String)
    (doi : PyObj) : Nat → Except PyExn PdfOutcome
  | 0 =>
    match http k with
    | .exn => .ok { ok := false, written := none, reqs := 1, fileUrl := pdfUrl result }
    | .resp status content =>
      if status ≥ 400 then
        .ok { ok := false, written := none, reqs := 1, fileUrl := pdfUrl result }
      else save_pdf content result dir doi (pdfUrl result)
  | n + 1 =>
    match http k with
    | .exn => .ok { ok := false, written := none, reqs := 1, fileUrl := pdfUrl result }
    | .resp status content =>
      if status ≥ 400 then
        if 500 ≤ status ∧ status < 600 then
          match download_pdf http (k + 1) result dir doi n with
          | .error e => .error e
          | .ok o => .ok { o with reqs := o.reqs + 1 }
        else .ok { ok := false, written := none, reqs := 1, fileUrl := pdfUrl result }
      else save_pdf content result dir doi (pdfUrl result)

/-- Element lists returned by the four xpath queries of `get_link_xpath` on a
successfully parsed landing page: the onclick attribute of each
`//div[@id="buttons"]/button`, the same for `//div[@id="buttons"]/ul/li/a`,
the text nodes of `//div[@id="citation"]/i` and of `//div[@id="citation"]`. -/
structure LandingPage where
  buttons : List (Option String)
  anchors : List (Option String)
  citationItalic : List String
  citationText : List String

/-- Outcome of handing a string to `lxml.html.fromstring`: a parsed page, or
an exception during parsing. -/
inductive HtmlInput
  | malformed
  | page (p : LandingPage)

/-- Whitespace characters matched by the regex class backslash-s in Python
(ASCII range). -/
def isPySpace (c : Char) : Bool :=
  c == ' ' || c == '\t' || c == '\n' || c == '\r' || c == '\x0b' || c == '\x0c'

/-- Drop leading regex whitespace. -/
def skipSpaces (cs : List Char) : List Char := cs.dropWhile isPySpace

/-- Shortest run of characters up to the next single quote; `none` when no
closing quote follows (the non-greedy group of the regex then has no match
at this position). -/
def takeUntilQuote : List Char → Option (List Char)
  | [] => none
  | c :: cs => if c == '\'' then some [] else (takeUntilQuote cs).map (fun r => c :: r)

/-- Attempt to match the regex of source line 76 at the head of the list:
the literal text `location`, any character (the unescaped dot), `href`,
optional whitespace, an equals sign, optional whitespace, a single quote,
then the non-greedy capture up to the next single quote. -/
def matchHrefAt : List Char → Option (List Char)
  | 'l' :: 'o' :: 'c' :: 'a' :: 't' :: 'i' :: 'o' :: 'n' :: _ :: 'h' :: 'r' :: 'e' :: 'f' :: rest =>
    match skipSpaces rest with
    | '=' :: rest2 =>
      match skipSpaces rest2 with
      | '\'' :: rest3 => takeUntilQuote rest3
      | _ => none
    | _ => none
  | _ => none

/-- First match of the regex anywhere in the list, scanning left to right;
embeds `re.findall(...)[0]` (`none` when `findall` returns the empty list). -/
def findHref : List Char → Option (List Char)
  | [] => none
  | c :: cs =>
    match matchHrefAt (c :: cs) with
    | some r => some r
    | none => findHref cs

/-- Value of the variable `onclick` after the loop at source lines 71-74 over
a nonempty element list: the loop breaks at the first truthy attribute, and
otherwise leaves the last element's attribute value. -/
def loopOnclick : List (Option String) → Option String
  | [] => none
  | [x] => x
  | x :: y :: rest => if truthyStr x then x else loopOnclick (y :: rest)

/-- Body of the `try` block of `get_link_xpath` (source lines 62-80) on a
successfully parsed page.  `re.findall` on `None` raises `TypeError`;
subscripting an empty match list or an empty title list raises
`IndexError`. -/
def get_link_xpath_body (p : LandingPage) : Except PyExn (Option LinkResult) :=
  let a := if p.buttons.isEmpty then p.anchors else p.buttons
  if a.isEmpty then .ok none
  else
    match loopOnclick a with
    | none => .error .typeError
    | some oc =>
      match findHref oc.data with
      | none => .error .indexError
      | some href =>
        let title := if p.citationItalic.isEmpty then p.citationText else p.citationItalic
        match title with
        | [] => .error .indexError
        | t :: _ => .ok (some { title := t, onclick := String.mk href })

/-- Embedding of `get_link_xpath` (source lines 59-83).  The argument is the
value `download` returned (`None` embedded as `none`; `fromstring(None)`
raises, and the handler returns `None`).  Every exception raised inside the
`try` block is caught by the `except Exception` handler, which returns
`None`. -/
def get_link_xpath (parse : String → HtmlInput) (html : Option String) : Option LinkResult :=
  match html with
  | none => none
  | some s =>
    match parse s with
    | .malformed => none
    | .page p =>
      match get_link_xpath_body p with
      | .ok r => r
      | .error _ => none

/-- State of a `Cache` object (source lines 27-55): the in-memory dictionary
and the contents of the backing file. -/
structure CacheState where
  mem : List (String × String)
  disk : List (String × String)
  deriving DecidableEq

/-- Embedding of `Cache.__getitem__` (source lines 32-33): a pure read of the
in-memory dictionary. -/
def cache_getitem (st : CacheState) (url : String) : Option String :=
  listLookup st.mem url

/-- Embedding of `Cache.__setitem__` (source lines 35-42): update the
in-memory dictionary first, then rewrite the whole backing file; `writeOk`
models whether the file write succeeds (a failure is caught, printed and
ignored, leaving the old file contents). -/
def cache_setitem (st : CacheState) (key val : String) (writeOk : Bool) : CacheState :=
  let mem2 := listInsert key val st.mem
  { mem := mem2, disk := if writeOk then mem2 else st.disk }

/-- Configuration arguments of `sci_hub_crawler` (source lines 181-186).
`useCache` records whether a cache object was supplied. -/
structure Config where
  user_agent : String
  num_retries : Nat
  delay : Int
  start_url : String
  useSSL : Bool
  nolimit : Bool
  useCache : Bool
  dir : String

/-- External world of one crawler run: the robots parser obtained by
`get_robot_parser` (`none` when fetching or parsing robots.txt failed, with
`can_fetch` modelled as a function of agent and URL), the HTTP response
oracle, and the HTML parser. -/
structure Env where
  rp : Option (String → String → Bool)
  http : Nat → HttpResult
  parse : String → HtmlInput

/-- Mutable state threaded through the crawler loop: the rate-limiter table
and clock, the in-memory cache dictionary, the files written so far as
(path, content) pairs, the success counter, the index of the next HTTP
request, and the total number of HTTP requests issued inside the loop. -/
structure CrawlState where
  domains : String → Option Int
  time : Int
  cache : List (String × String)
  files : List (String × String)
  succ : Nat
  reqIdx : Nat
  netCalls : Nat

/-- Embedding of the test `rp and rp.can_fetch(user_agent, url)`
(source line 211, left operand of `or`). -/
def robotsAllowed (rp : Option (String → String → Bool)) (agent url : String) : Bool :=
  match rp with
  | some can_fetch => can_fetch agent url
  | none => false

/-- Body of the allowed branch of the crawler loop (source lines 212-224):
rate-limit wait, landing-page fetch, link extraction, then quartile lookup
`doi[2]`, file download, and on success the cache store and the counter
increment.  The source passes the whole `doi` list as the fallback name. -/
def allowedPipeline (cfg : Config) (env : Env) (st : CrawlState) (doi : List String)
    (url : String) : Except PyExn CrawlState :=
  let w := wait url cfg.delay st.domains st.time
  let dl := download env.http st.reqIdx cfg.num_retries
  let st1 : CrawlState :=
    { st with time := w.1, domains := w.2,
              reqIdx := st.reqIdx + dl.2, netCalls := st.netCalls + dl.2 }
  match get_link_xpath env.parse dl.1 with
  | none => .ok st1
  | some result =>
    match doi[2]? with
    | none => .error .indexError
    | some quartile =>
      let target_dir := joinPath cfg.dir quartile
      match download_pdf env.http st1.reqIdx result target_dir (.pyList doi) cfg.num_retries with
      | .error e => .error e
      | .ok o =>
        let st2 : CrawlState :=
          { st1 with reqIdx := st1.reqIdx + o.reqs, netCalls := st1.netCalls + o.reqs,
                     files := st1.files ++ o.written.toList }
        if o.ok then
          .ok { st2 with
                cache := if cfg.useCache then listInsert url ("https:" ++ result.onclick) st2.cache
                         else st2.cache,
                succ := st2.succ + 1 }
        else .ok st2

/-- One iteration of the crawler loop (source lines 203-226) for the list
entry `doi`: derive the landing URL from `doi[0]`, skip and count a success
on a truthy cache hit, otherwise run the pipeline when
`(rp and rp.can_fetch(user_agent, url)) or nolimit` holds, else skip as
blocked. -/
def crawlStep (cfg : Config) (env : Env) (st : CrawlState) (doi : List String) :
    Except PyExn CrawlState :=
  match doi[0]? with
  | none => .error .indexError
  | some d0 =>
    let url := doiToUrl d0 cfg.start_url cfg.useSSL
    if cfg.useCache && truthyStr (listLookup st.cache url) then
      .ok { st with succ := st.succ + 1 }
    else if robotsAllowed env.rp cfg.user_agent url || cfg.nolimit then
      allowedPipeline cfg env st doi url
    else
      .ok st

/-- The crawler's `for` loop: an uncaught exception in an iteration aborts
the remaining iterations and escapes. -/
def crawlLoop (cfg : Config) (env : Env) : CrawlState → List (List String) →
    Except PyExn CrawlState
  | st, [] => .ok st
  | st, doi :: rest =>
    match crawlStep cfg env st doi with
    | .error e => .error e
    | .ok st2 => crawlLoop cfg env st2 rest

/-- Initial crawler state: empty rate table, clock at `t0`, cache dictionary
loaded as `cache0`, no files written, zero successes and zero requests. -/
def initState (cache0 : List (String × String)) (t0 : Int) : CrawlState :=
  { domains := fun _ => none, time := t0, cache := cache0, files := [],
    succ := 0, reqIdx := 0, netCalls := 0 }

/-- Embedding of `sci_hub_crawler` (source lines 181-228): run the loop over
the identifier list from the initial state. -/
def sci_hub_crawler (cfg : Config) (env : Env) (doi_list : List (List String))
    (cache0 : List (String × String)) (t0 : Int) : Except PyExn CrawlState :=
  crawlLoop cfg env (initState cache0 t0) doi_list

/-- A single-quote character as a one-character string, for building test
pages. -/
def sq : String := String.mk ['\'']

/-- The onclick attribute of the scenario of claim C5. -/
def onclickC5 : String := "location.href=" ++ sq ++ "//mirror/file.pdf" ++ sq

/-- The landing page of the scenario of claim C5: one button whose onclick
sets `location.href` to `//mirror/file.pdf`, and citation text
`Example Title`. -/
def pageC5 : LandingPage :=
  { buttons := [some onclickC5], anchors := [],
    citationItalic := [("Example Title")], citationText := [] }

/-- Configuration of the scenario of claim C5: the source's default
arguments, a supplied cache, and target directory `target`. -/
def cfgC5 : Config :=
  { user_agent := "sheng", num_retries := 2, delay := 3,
    start_url := "www.sci-hub.wf", useSSL := true, nolimit := false,
    useCache := true, dir := "target" }

/-- Environment of the scenario of claim C5: robots allows everything, the
first HTTP request returns the landing page and the second the file body,
and parsing the landing page yields `pageC5`. -/
def envC5 : Env :=
  { rp := some (fun _ _ => true),
    http := fun k => if k == 0 then .resp 200 ("LANDING") else .resp 200 ("PDFBYTES"),
    parse := fun s => if s == "LANDING" then .page pageC5 else .malformed }

/-- The landing URL the crawler derives for identifier `10.1/abc` under the
default gateway configuration. -/
def urlC5 : String := "https://www.sci-hub.wf/10.1/abc"

/-- Configuration for the claim C2 counterexample: defaults, cache supplied,
robots consulted. -/
def cfgC2 : Config :=
  { user_agent := "sheng", num_retries := 2, delay := 3,
    start_url := "www.sci-hub.wf", useSSL := true, nolimit := false,
    useCache := true, dir := "target" }

/-- Environment for the claim C2 counterexample: robots denies everything,
so that the observable violation is purely the missing success increment. -/
def envC2 : Env :=
  { rp := some (fun _ _ => false), http := fun _ => .exn, parse := fun _ => .malformed }

/-- Crawler state for the claim C2 counterexample: the derived landing URL is
present as a cache key, but mapped to the empty string. -/
def stC2 : CrawlState :=
  { domains := fun _ => none, time := 0, cache := [(urlC5, String.mk [])], files := [],
    succ := 0, reqIdx := 0, netCalls := 0 }

/-- Looking a key up right after inserting it yields the inserted value. -/
theorem listLookup_insert (k v : String) (m : List (String × String)) :
    listLookup (listInsert k v m) k = some v := by
  induction m with
  | nil => simp [listInsert, listLookup]
  | cons hd tl ih =>
    obtain ⟨k0, v0⟩ := hd
    by_cases h : (k0 == k) = true
    · simp [listInsert, h, listLookup]
    · simp [listInsert, h, listLookup, ih]

/-- The replacement character of the sanitizer is itself in the allowed
class. -/
theorem validChar_underscore : validChar '_' = true := by decide

/-- Each character the sanitizer emits is in the allowed class. -/
theorem sanitizeChar_valid (c : Char) :
    validChar (if validChar c then c else '_') = true := by
  by_cases h : validChar c
  · rw [if_pos h]
    exact h
  · rw [if_neg h]
    exact validChar_underscore

/-- Mapping the sanitizing replacement over a list of characters that are all
in the allowed class leaves the list unchanged. -/
theorem map_sanitize_of_valid (l : List Char) (h : ∀ c ∈ l, validChar c = true) :
    l.map (fun c => if validChar c then c else '_') = l := by
  induction l with
  | nil => rfl
  | cons c cs ih =>
    have hc : validChar c = true := h c (by simp)
    simp only [List.map_cons, hc, if_pos]
    exact congrArg (c :: ·) (ih (fun x hx => h x (by simp [hx])))

/-- Claim C3: filename sanitization `get_valid_filename` is idempotent, its
output never exceeds 128 characters, and every output character lies in the
allowed class `[0-9A-Za-z\-,._;]` (underscore included), every other input
character having been replaced by an underscore. -/
theorem get_valid_filename_spec (s : String) :
    get_valid_filename (get_valid_filename s) = get_valid_filename s ∧
    (get_valid_filename s).length ≤ 128 ∧
    ∀ c ∈ (get_valid_filename s).data, validChar c = true := by
  refine ⟨?_, ?_, ?_⟩
  · have hval : ∀ c ∈ (get_valid_filename s).data, validChar c = true := by
      intro c hc
      simp only [get_valid_filename] at hc
      have hc2 := List.mem_of_mem_take hc
      obtain ⟨x, _, hx⟩ := List.mem_map.mp hc2
      rw [← hx]
      exact sanitizeChar_valid x
    have hlen : (get_valid_filename s).data.length ≤ 128 := by
      simp only [get_valid_filename]
      simp only [List.length_take]
      exact Nat.min_le_left 128 _
    show String.mk (((get_valid_filename s).data.map
        (fun c => if validChar c then c else '_')).take 128) = get_valid_filename s
    rw [map_sanitize_of_valid _ hval, List.take_of_length_le hlen]
  · simp only [get_valid_filename, String.length, List.length_take]
    exact Nat.min_le_left 128 _
  · intro c hc
    simp only [get_valid_filename] at hc
    have hc2 := List.mem_of_mem_take hc
    obtain ⟨x, _, hx⟩ := List.mem_map.mp hc2
    rw [← hx]
    exact sanitizeChar_valid x

/-- Witness for claim C3 at the concrete input `a b!`: sanitizing is
idempotent there and the underscore produced for the space is in the allowed
class. -/
theorem get_valid_filename_spec_w :
    get_valid_filename (get_valid_filename ("a b!")) = get_valid_filename ("a b!") ∧
    validChar '_' = true :=
  ⟨(get_valid_filename_spec ("a b!")).1,
   (get_valid_filename_spec ("a b!")).2.2 '_' (by decide)⟩

/-- Claim C9: `Cache.__setitem__` first updates the in-memory mapping and
then rewrites the whole backing file; a write failure is reported, never
raised, and does not roll back the in-memory change, so a lookup of the key
returns the stored value regardless of whether the disk write succeeded. -/
theorem cache_setitem_spec (st : CacheState) (k v : String) (writeOk : Bool) :
    cache_getitem (cache_setitem st k v writeOk) k = some v ∧
    (cache_setitem st k v writeOk).mem = listInsert k v st.mem ∧
    (writeOk = true → (cache_setitem st k v writeOk).disk = (cache_setitem st k v writeOk).mem) ∧
    (writeOk = false → (cache_setitem st k v writeOk).disk = st.disk) := by
  refine ⟨?_, rfl, ?_, ?_⟩
  · exact listLookup_insert k v st.mem
  · intro h
    simp [cache_setitem, h]
  · intro h
    simp [cache_setitem, h]

/-- Witness for claim C9 at a concrete store whose disk write fails: the
lookup still returns the stored value and the backing file is unchanged. -/
theorem cache_setitem_spec_w :
    cache_getitem (cache_setitem ⟨[], []⟩ ("k") ("v") false) ("k") = some ("v") ∧
    (cache_setitem ⟨[], []⟩ ("k") ("v") false).disk = ([] : List (String × String)) :=
  ⟨(cache_setitem_spec ⟨[], []⟩ ("k") ("v") false).1,
   (cache_setitem_spec ⟨[], []⟩ ("k") ("v") false).2.2.2 rfl⟩

/-- Claim C8: the rate limiter never sleeps on the first request to a host;
a second call for the same host before the interval has elapsed returns
exactly when the interval since the recorded timestamp has elapsed; the
return time depends only on the calling host's recorded entry, so another
host's state never delays a call; and after every call the calling host's
timestamp equals the time of return. -/
theorem wait_spec :
    (∀ url delay domains t, domains (netloc url) = none →
      (wait url delay domains t).1 = t) ∧
    (∀ url delay domains t la, domains (netloc url) = some la → 0 < delay →
      t < la + delay → (wait url delay domains t).1 = la + delay) ∧
    (∀ url delay d1 d2 t, d1 (netloc url) = d2 (netloc url) →
      (wait url delay d1 t).1 = (wait url delay d2 t).1) ∧
    (∀ url delay domains t,
      (wait url delay domains t).2 (netloc url) = some (wait url delay domains t).1) := by
  refine ⟨?_, ?_, ?_, ?_⟩
  · intro url delay domains t h
    simp [wait, h]
  · intro url delay domains t la h hd ht
    simp only [wait, h]
    rw [if_pos (by omega)]
    omega
  · intro url delay d1 d2 t h
    simp [wait, h]
  · intro url delay domains t
    simp [wait]

/-- Witness for claim C8: a fresh host returns immediately at time 11 even
though another host has a recorded timestamp. -/
theorem wait_spec_w :
    (wait ("https://b/x") 3 (fun d => if d == "a" then some 10 else none) 11).1 = 11 :=
  wait_spec.1 ("https://b/x") 3 (fun d => if d == "a" then some 10 else none) 11 (by decide)

/-- Claim C7: `get_link_xpath` never propagates an exception: it is a total
function into `Option`; when the page parses but neither the button selector
nor the anchor fallback matches any element it returns `none`; when parsing
raises (including `fromstring(None)` after a failed download) it returns
`none`; and every exception raised inside the `try` body is caught and turned
into `none`. -/
theorem get_link_xpath_spec :
    (∀ parse : String → HtmlInput, get_link_xpath parse none = none) ∧
    (∀ (parse : String → HtmlInput) (s : String), parse s = HtmlInput.malformed →
      get_link_xpath parse (some s) = none) ∧
    (∀ (parse : String → HtmlInput) (s : String) (p : LandingPage),
      parse s = HtmlInput.page p → p.buttons = [] → p.anchors = [] →
      get_link_xpath parse (some s) = none) ∧
    (∀ (parse : String → HtmlInput) (s : String) (p : LandingPage) (e : PyExn),
      parse s = HtmlInput.page p → get_link_xpath_body p = .error e →
      get_link_xpath parse (some s) = none) := by
  refine ⟨fun _ => rfl, ?_, ?_, ?_⟩
  · intro parse s h
    simp [get_link_xpath, h]
  · intro parse s p hp hb ha
    simp [get_link_xpath, hp, get_link_xpath_body, hb, ha]
  · intro parse s p e hp he
    simp [get_link_xpath, hp, he]

/-- Witness for claim C7 at a page with no buttons and no anchors: the
extractor reports the not-indexed case as `none`. -/
theorem get_link_xpath_spec_w :
    get_link_xpath (fun _ => HtmlInput.page ⟨[], [], [], []⟩) (some ("x")) = none :=
  get_link_xpath_spec.2.2.1 (fun _ => HtmlInput.page ⟨[], [], [], []⟩) ("x")
    ⟨[], [], [], []⟩ rfl rfl rfl

/-- Claim C1: for every response sequence, `download` returns the body when
the status is below 400; a status in [400,500) or a transport exception fails
immediately with a single request and no retry; a 5xx response retries only
while the budget is positive, decrementing it each time; and on persistently
5xx responses exactly `num_retries + 1` requests are issued before the
deterministic failure.  The same classification holds for `download_pdf`. -/
theorem download_retry_spec :
    (∀ (http : Nat → HttpResult) (k s : Nat) (b : String) (n : Nat),
      http k = .resp s b → s < 400 → download http k n = (some b, 1)) ∧
    (∀ (http : Nat → HttpResult) (k s : Nat) (b : String) (n : Nat),
      http k = .resp s b → 400 ≤ s → s < 500 → download http k n = (none, 1)) ∧
    (∀ (http : Nat → HttpResult) (k n : Nat),
      http k = .exn → download http k n = (none, 1)) ∧
    (∀ (http : Nat → HttpResult) (k s : Nat) (b : String) (n : Nat),
      http k = .resp s b → 500 ≤ s → s < 600 →
      download http k (n + 1) = ((download http (k + 1) n).1, (download http (k + 1) n).2 + 1) ∧
      download http k 0 = (none, 1)) ∧
    (∀ (http : Nat → HttpResult) (k n : Nat),
      (∀ j, is5xx (http (k + j))) → download http k n = (none, n + 1)) ∧
    (∀ (http : Nat → HttpResult) (k s : Nat) (b : String) (r : LinkResult) (dir : String)
      (doi : PyObj) (n : Nat),
      http k = .resp s b → 400 ≤ s → s < 500 →
      download_pdf http k r dir doi n = .ok ⟨false, none, 1, pdfUrl r⟩) ∧
    (∀ (http : Nat → HttpResult) (k : Nat) (r : LinkResult) (dir : String) (doi : PyObj)
      (n : Nat), http k = .exn →
      download_pdf http k r dir doi n = .ok ⟨false, none, 1, pdfUrl r⟩) ∧
    (∀ (http : Nat → HttpResult) (k s : Nat) (b : String) (r : LinkResult) (dir : String)
      (doi : PyObj) (n : Nat),
      http k = .resp s b → 500 ≤ s → s < 600 →
      download_pdf http k r dir doi (n + 1) =
        (download_pdf http (k + 1) r dir doi n).map (fun o => { o with reqs := o.reqs + 1 }) ∧
      download_pdf http k r dir doi 0 = .ok ⟨false, none, 1, pdfUrl r⟩) ∧
    (∀ (http : Nat → HttpResult) (k : Nat) (r : LinkResult) (dir : String) (doi : PyObj)
      (n : Nat), (∀ j, is5xx (http (k + j))) →
      download_pdf http k r dir doi n = .ok ⟨false, none, n + 1, pdfUrl r⟩) := by
  refine ⟨?_, ?_, ?_, ?_, ?_, ?_, ?_, ?_, ?_⟩
  · intro http k s b n hk hs
    cases n with
    | zero =>
      simp only [download, hk]
      rw [if_neg (by omega)]
    | succ m =>
      simp only [download, hk]
      rw [if_neg (by omega)]
  · intro http k s b n hk h4 h5
    cases n with
    | zero =>
      simp only [download, hk]
      rw [if_pos (by omega)]
    | succ m =>
      simp only [download, hk]
      rw [if_pos (by omega), if_neg (by omega)]
  · intro http k n hk
    cases n <;> simp only [download, hk]
  · intro http k s b n hk h5 h6
    constructor
    · simp only [download, hk]
      rw [if_pos (by omega), if_pos (by exact ⟨h5, h6⟩)]
    · simp only [download, hk]
      rw [if_pos (by omega)]
  · intro http k n h5
    induction n generalizing k with
    | zero =>
      have h := h5 0
      rcases hk : http (k + 0) with ⟨s, b⟩ | _
      · rw [hk] at h
        simp only [is5xx] at h
        simp only [download, show http k = HttpResult.resp s b from hk]
        rw [if_pos (by omega)]
      · rw [hk] at h
        exact absurd h (by simp [is5xx])
    | succ m ih =>
      have h := h5 0
      rcases hk : http (k + 0) with ⟨s, b⟩ | _
      · rw [hk] at h
        simp only [is5xx] at h
        have hrec := ih (k + 1) (fun j => by
          have := h5 (j + 1)
          rwa [show k + (j + 1) = k + 1 + j by omega] at this)
        simp only [download, show http k = HttpResult.resp s b from hk]
        rw [if_pos (by omega), if_pos (by exact ⟨h.1, h.2⟩), hrec]
      · rw [hk] at h
        exact absurd h (by simp [is5xx])
  · intro http k s b r dir doi n hk h4 h5
    cases n with
    | zero =>
      simp only [download_pdf, hk]
      rw [if_pos (by omega)]
    | succ m =>
      simp only [download_pdf, hk]
      rw [if_pos (by omega), if_neg (by omega)]
  · intro http k r dir doi n hk
    cases n <;> simp only [download_pdf, hk]
  · intro http k s b r dir doi n hk h5 h6
    constructor
    · simp only [download_pdf, hk]
      rw [if_pos (by omega), if_pos (by exact ⟨h5, h6⟩)]
      rcases download_pdf http (k + 1) r dir doi n with e | o <;> rfl
    · simp only [download_pdf, hk]
      rw [if_pos (by omega)]
  · intro http k r dir doi n h5
    induction n generalizing k with
    | zero =>
      have h := h5 0
      rcases hk : http (k + 0) with ⟨s, b⟩ | _
      · rw [hk] at h
        simp only [is5xx] at h
        simp only [download_pdf, show http k = HttpResult.resp s b from hk]
        rw [if_pos (by omega)]
      · rw [hk] at h
        exact absurd h (by simp [is5xx])
    | succ m ih =>
      have h := h5 0
      rcases hk : http (k + 0) with ⟨s, b⟩ | _
      · rw [hk] at h
        simp only [is5xx] at h
        have hrec := ih (k + 1) (fun j => by
          have := h5 (j + 1)
          rwa [show k + (j + 1) = k + 1 + j by omega] at this)
        simp only [download_pdf, show http k = HttpResult.resp s b from hk]
        rw [if_pos (by omega), if_pos (by exact ⟨h.1, h.2⟩), hrec]
      · rw [hk] at h
        exact absurd h (by simp [is5xx])

/-- Witness for claim C1: with every response a 503 and the default budget 2,
the page fetcher issues exactly 3 requests and fails. -/
theorem download_retry_spec_w :
    download (fun _ => HttpResult.resp 503 (String.mk [])) 0 2 = (none, 3) :=
  download_retry_spec.2.2.2.2.1 (fun _ => HttpResult.resp 503 (String.mk [])) 0 2
    (fun _ => ⟨by omega, by omega⟩)

/-- Claim C4: on a successful (status below 400) file response,
`download_pdf` writes under the supplied target directory a file named by the
sanitized extracted title plus `.pdf` when the title has at least 5
characters, and otherwise by the sanitized fallback identifier plus
`.pdf`. -/
theorem download_pdf_filename_spec (http : Nat → HttpResult) (k : Nat) (r : LinkResult)
    (dir fb : String) (n s : Nat) (content : String)
    (hk : http k = .resp s content) (hs : s < 400) :
    download_pdf http k r dir (.pyStr fb) n =
      .ok { ok := true,
            written := some (joinPath dir
              ((if r.title.length ≥ 5 then get_valid_filename r.title
                else get_valid_filename fb) ++ ".pdf"), content),
            reqs := 1, fileUrl := pdfUrl r } := by
  have hbody : save_pdf content r dir (.pyStr fb) (pdfUrl r) =
      .ok { ok := true,
            written := some (joinPath dir
              ((if r.title.length ≥ 5 then get_valid_filename r.title
                else get_valid_filename fb) ++ ".pdf"), content),
            reqs := 1, fileUrl := pdfUrl r } := by
    unfold save_pdf get_valid_filename_py
    by_cases ht : r.title.length ≥ 5
    · simp [ht]
    · simp [ht]
  cases n with
  | zero =>
    simp only [download_pdf, hk]
    rw [if_neg (by omega)]
    exact hbody
  | succ m =>
    simp only [download_pdf, hk]
    rw [if_neg (by omega)]
    exact hbody

/-- Claim C2 (amended): for every identifier whose derived landing-page URL
is mapped by the supplied cache to a non-empty value, the crawler step
performs no network call at all (no robots re-check, no rate wait, no page
fetch, no file download), leaves every other state component unchanged, and
increments the success counter by exactly one. -/
theorem cache_hit_skips_pipeline (cfg : Config) (env : Env) (st : CrawlState)
    (doi : List String) (d0 : String) (h0 : doi[0]? = some d0)
    (hc : cfg.useCache = true)
    (ht : truthyStr (listLookup st.cache (doiToUrl d0 cfg.start_url cfg.useSSL)) = true) :
    crawlStep cfg env st doi = .ok { st with succ := st.succ + 1 } := by
  simp [crawlStep, h0, hc, ht]

/-- Crawler state whose cache maps the derived landing URL to a non-empty
resolved URL. -/
def stC2hit : CrawlState :=
  { domains := fun _ => none, time := 0, cache := [(urlC5, "https://mirror/file.pdf")],
    files := [], succ := 0, reqIdx := 0, netCalls := 0 }

/-- Witness for claim C2 (amended): a concrete cache hit increments the
success counter and changes nothing else. -/
theorem cache_hit_skips_pipeline_w :
    crawlStep cfgC2 envC2 stC2hit ["10.1/abc"] = .ok { stC2hit with succ := stC2hit.succ + 1 } :=
  cache_hit_skips_pipeline cfgC2 envC2 stC2hit ["10.1/abc"] ("10.1/abc") rfl rfl (by decide)

/-- Claim C2 counterexample: the landing URL is present as a cache key but
mapped to the empty string, so the truthiness test at source line 206 fails;
the step runs the full policy check instead of the cache-hit branch (here the
identifier ends up blocked) and the success counter is not incremented. -/
theorem cache_key_not_skipped_cex :
    (listLookup stC2.cache urlC5).isSome = true ∧
    crawlStep cfgC2 envC2 stC2 ["10.1/abc"] = .ok stC2 ∧
    stC2.succ = 0 :=
  ⟨by decide, rfl, rfl⟩

/-- Claim C6: when robots.txt could not be fetched or parsed (`rp` is none)
and the override flag is unset, the crawler step for a non-cached identifier
is the blocked branch: the state is returned unchanged, with no landing-page
fetch; when the override flag is set, the step runs the allowed pipeline. -/
theorem robots_none_spec (cfg : Config) (env : Env) (st : CrawlState)
    (doi : List String) (d0 : String)
    (hrp : env.rp = none) (h0 : doi[0]? = some d0)
    (hmiss : (cfg.useCache && truthyStr (listLookup st.cache
      (doiToUrl d0 cfg.start_url cfg.useSSL))) = false) :
    (cfg.nolimit = false → crawlStep cfg env st doi = .ok st) ∧
    (cfg.nolimit = true → crawlStep cfg env st doi =
      allowedPipeline cfg env st doi (doiToUrl d0 cfg.start_url cfg.useSSL)) := by
  constructor
  · intro hn
    simp [crawlStep, h0, hmiss, robotsAllowed, hrp, hn]
  · intro hn
    simp [crawlStep, h0, hmiss, robotsAllowed, hrp, hn]

/-- Environment in which fetching or parsing robots.txt failed. -/
def envNoRobots : Env :=
  { rp := none, http := fun _ => .exn, parse := fun _ => .malformed }

/-- Witness for claim C6: with no robots policy and the override flag unset,
a concrete non-cached identifier is skipped with the state unchanged. -/
theorem robots_none_spec_w :
    crawlStep cfgC2 envNoRobots (initState ([]) 0) ["10.1/abc"] = .ok (initState ([]) 0) :=
  (robots_none_spec cfgC2 envNoRobots (initState ([]) 0) ["10.1/abc"] ("10.1/abc")
    rfl rfl (by decide)).1 rfl

/-- Claim C5 counterexample: with the two-element entry of the claimed
scenario, the run saves nothing: the quartile subscript `doi[2]` at source
line 218 raises IndexError and the crawler aborts. -/
theorem scenario_pair_input_cex :
    sci_hub_crawler cfgC5 envC5 [["10.1/abc", "Q2"]] ([]) 0 = .error .indexError := rfl

/-- Claim C5 (amended): with the scenario entry shaped as the code expects —
a triple whose third component is the quality bucket, as produced by the
metadata collaborator — the run saves exactly one file at
`target/Q2/Example_Title.pdf` with the fetched body, leaves the cache mapping
the landing URL to `https://mirror/file.pdf`, and reports one success. -/
theorem scenario_triple_spec :
    (sci_hub_crawler cfgC5 envC5 [["10.1/abc", "2.5", "Q2"]] ([]) 0).map
      (fun fin => (fin.files, listLookup fin.cache urlC5, fin.succ)) =
      .ok ([(("target/Q2/Example_Title.pdf"), ("PDFBYTES"))],
           some ("https://mirror/file.pdf"), 1) := rfl

/-- One crawler iteration increments the success counter by at most one. -/
theorem allowedPipeline_succ_le (cfg : Config) (env : Env) (st st2 : CrawlState)
    (doi : List String) (url : String)
    (h : allowedPipeline cfg env st doi url = .ok st2) : st2.succ ≤ st.succ + 1 := by
  simp only [allowedPipeline] at h
  rcases hx : get_link_xpath env.parse (download env.http st.reqIdx cfg.num_retries).1 with
    _ | r <;> simp only [hx] at h
  · injection h with h
    subst h
    simp
  · rcases hq : doi[2]? with _ | q <;> simp only [hq] at h
    · cases h
    · rcases hd : download_pdf env.http
          (st.reqIdx + (download env.http st.reqIdx cfg.num_retries).2) r
          (joinPath cfg.dir q) (.pyList doi) cfg.num_retries with e | o <;> simp only [hd] at h
      · cases h
      · by_cases ho : o.ok = true
        · rw [if_pos ho] at h
          injection h with h
          subst h
          simp
        · rw [if_neg ho] at h
          injection h with h
          subst h
          simp

/-- One crawler step increments the success counter by at most one. -/
theorem crawlStep_succ_le (cfg : Config) (env : Env) (st st2 : CrawlState)
    (doi : List String) (h : crawlStep cfg env st doi = .ok st2) :
    st2.succ ≤ st.succ + 1 := by
  unfold crawlStep at h
  rcases h0 : doi[0]? with _ | d0 <;> simp only [h0] at h
  · cases h
  · by_cases hc : (cfg.useCache && truthyStr (listLookup st.cache
        (doiToUrl d0 cfg.start_url cfg.useSSL))) = true
    · rw [if_pos hc] at h
      injection h with h
      subst h
      simp
    · rw [if_neg hc] at h
      by_cases hr : (robotsAllowed env.rp cfg.user_agent
          (doiToUrl d0 cfg.start_url cfg.useSSL) || cfg.nolimit) = true
      · rw [if_pos hr] at h
        exact allowedPipeline_succ_le cfg env st st2 doi _ h
      · rw [if_neg hr] at h
        injection h with h
        subst h
        omega

/-- Over any suffix of the loop, the success counter grows by at most the
number of processed entries. -/
theorem crawlLoop_succ_le (cfg : Config) (env : Env) (l : List (List String)) :
    ∀ st fin : CrawlState, crawlLoop cfg env st l = .ok fin →
      fin.succ ≤ st.succ + l.length := by
  induction l with
  | nil =>
    intro st fin h
    injection h with h
    subst h
    simp
  | cons d rest ih =>
    intro st fin h
    unfold crawlLoop at h
    rcases hs : crawlStep cfg env st d with e | st2 <;> rw [hs] at h
    · cases h
    · have h1 := crawlStep_succ_le cfg env st st2 d hs
      have h2 := ih st2 fin h
      simp only [List.length_cons]
      omega

/-- Claim C10: throughout a run, the success counter is incremented at most
once per identifier, so on normal completion the reported success count never
exceeds the length of the input list. -/
theorem sci_hub_crawler_succ_le (cfg : Config) (env : Env) (doi_list : List (List String))
    (cache0 : List (String × String)) (t0 : Int) (fin : CrawlState)
    (h : sci_hub_crawler cfg env doi_list cache0 t0 = .ok fin) :
    fin.succ ≤ doi_list.length := by
  have h2 := crawlLoop_succ_le cfg env doi_list (initState cache0 t0) fin h
  simpa [initState] using h2

/-- Witness for claim C10 on a concrete completed run over the empty input
list: the success count is bounded by the list length. -/
theorem sci_hub_crawler_succ_le_w :
    (initState ([]) 0).succ ≤ ([] : List (List String)).length :=
  sci_hub_crawler_succ_le cfgC5 envC5 ([]) ([]) 0 (initState ([]) 0) rfl

/-- Witness for claim C4 at a concrete successful download with a long
title. -/
theorem download_pdf_filename_spec_w :
    download_pdf (fun _ => HttpResult.resp 200 ("PDF")) 0 ⟨"Example Title", "//m/f.pdf"⟩
      ("d") (.pyStr ("10.1/x")) 2 =
      .ok { ok := true,
            written := some (joinPath ("d")
              ((if (LinkResult.mk ("Example Title") ("//m/f.pdf")).title.length ≥ 5
                then get_valid_filename (LinkResult.mk ("Example Title") ("//m/f.pdf")).title
                else get_valid_filename ("10.1/x")) ++ ".pdf"), "PDF"),
            reqs := 1, fileUrl := pdfUrl ⟨"Example Title", "//m/f.pdf"⟩ } :=
  download_pdf_filename_spec (fun _ => HttpResult.resp 200 ("PDF")) 0
    ⟨"Example Title", "//m/f.pdf"⟩ ("d") ("10.1/x") 2 200 ("PDF") rfl (by omega)

end SciSpider
